import Mathlib

/-
Shallow embedding of the kagglehub sources (src/kagglehub/__init__.py,
exceptions.py, dj.py) for checking the natural-language specification.
Python exceptions are modelled as values of an inductive type `PyExn`;
a function that may raise returns `Option PyExn` (the raised exception,
or `none` for a normal return) or `Except PyExn α` when it also produces
a value. Python dictionaries holding the documented response fields are
modelled as structures of optional typed fields.
-/

namespace Kagglehub

/-- The Python exceptions relevant to the embedded functions.
`UnboundLocalError` models the interpreter error raised when a function
body reads a local variable that was never assigned on the executed path.
`HTTPError` models an exception from `response.raise_for_status()` that no
`except` clause of the wrapper catches, carrying the response status.
`UnsupportedEnvironmentError` is the spec taxonomy's name for the failure
when no resolver in a chain is supported. -/
inductive PyExn where
  | KaggleApiHTTP1Error (message : String)
  | ColabHTTP1Error (message : String)
  | UnauthenticatedError (message : String)
  | NotFoundError
  | BackendError (message : String) (error_code : Option Int)
  | DataCorruptionError
  | UnsupportedEnvironmentError
  | UnboundLocalError (var : String)
  | HTTPError (status : Nat)
  deriving DecidableEq

/-- Recognizer for `BackendError` values. -/
def is_backend_error : PyExn → Bool
  | .BackendError _ _ => true
  | _ => false

/-- Recognizer for a raised `UnauthenticatedError`. -/
def raised_unauthenticated : Option PyExn → Bool
  | some (.UnauthenticatedError _) => true
  | _ => false

/-- Recognizer for a raised `NotFoundError`. -/
def raised_not_found : Option PyExn → Bool
  | some .NotFoundError => true
  | _ => false

/-- The class names defined by src/kagglehub/exceptions.py, in source
order (lines 11-63). -/
def exceptions_module_classes : List String :=
  ["CredentialError", "KaggleEnvironmentError", "ColabEnvironmentError",
   "BackendError", "NotFoundError", "DataCorruptionError",
   "KaggleApiHTTP1Error", "ColabHTTP1Error", "KaggleApiHTTPError",
   "ColabHTTPError", "UnauthenticatedError"]

/-- The six error kinds named by the spec's error taxonomy. -/
def spec_error_taxonomy : List String :=
  ["ValidationError", "UnsupportedEnvironmentError", "UnauthenticatedError",
   "NotFoundError", "BackendError", "DataCorruptionError"]

/-- An HTTP response as the wrappers in exceptions.py read it: its status
and its URL. The source reads the status both as `response.status_code`
and as `response.status`; both denote the response's HTTP status here. -/
structure ClientResponse where
  status : Nat
  url : String
  deriving DecidableEq

/-- A resource handle as used by the wrappers: only its `to_url`
rendering is consumed (handle.py is not among the sources). -/
structure ResourceHandle where
  to_url : String
  deriving DecidableEq

/-- `resource_handle.to_url() if resource_handle else response.url`. -/
def resource_url_of (response : ClientResponse)
    (resource_handle : Option ResourceHandle) : String :=
  match resource_handle with
  | some h => h.to_url
  | none => response.url

/-- The message built by the 401 and 403 branches of both wrappers. -/
def permission_denied_message (status : Nat) (resource_url : String) : String :=
  toString status ++ " Client Error." ++ "\n\n" ++
  "You don\x27t have permission to access resource at URL: " ++ resource_url ++
  "\nPlease make sure you are authenticated if you are trying to access a private resource or a resource requiring consent."

/-- Models Python `str(e)` for the HTTP error caught from
`raise_for_status()`: some string determined by the response status. -/
def str_of_http_error (status : Nat) : String :=
  toString status ++ ": HTTP error"

/-- exceptions.py lines 66-104. The 401 and 403 branches assign the
local `resource_url` and raise `KaggleApiHTTP1Error` with the permission
message; the 404 branch builds a message that reads `resource_url`,
which no statement of that branch ever assigned, so executing it raises
`UnboundLocalError` for `resource_url`. Statuses with no matching
`except` clause let the exception from `raise_for_status()` propagate. -/
def kaggle_api_raise_for_status (response : ClientResponse)
    (resource_handle : Option ResourceHandle) : Option PyExn :=
  if response.status = 401 then
    some (.KaggleApiHTTP1Error
      (permission_denied_message response.status (resource_url_of response resource_handle)))
  else if response.status = 403 then
    some (.KaggleApiHTTP1Error
      (permission_denied_message response.status (resource_url_of response resource_handle)))
  else if response.status = 404 then
    some (.UnboundLocalError "resource_url")
  else if 400 ≤ response.status then
    some (.HTTPError response.status)
  else
    none

/-- exceptions.py lines 107-127: every HTTP error from
`raise_for_status()` is caught; for 401/403 the default `str(e)` message
is replaced by the permission message; every caught error is re-raised
as `ColabHTTP1Error`. -/
def colab_raise_for_status (response : ClientResponse)
    (resource_handle : Option ResourceHandle) : Option PyExn :=
  if 400 ≤ response.status then
    let message := str_of_http_error response.status
    let resource_url := resource_url_of response resource_handle
    let message :=
      if response.status = 401 ∨ response.status = 403 then
        permission_denied_message response.status resource_url
      else message
    some (.ColabHTTP1Error message)
  else
    none

/-- A parsed 2xx POST response body with the documented optional fields
`code`, `message`, `error`, `errorCode` (spec section 4.6). -/
structure PostResponse where
  code : Option Int
  message : Option String
  error : Option String
  errorCode : Option Int
  deriving DecidableEq

/-- exceptions.py lines 130-139. `response.get("code", 200)` defaults a
missing `code` to 200; an out-of-range code raises `BackendError` with
the body's `message` (or a default) and no error code; otherwise a
present, non-empty `error` field raises `BackendError` with that text
and the body's `errorCode` when present. -/
def process_post_response (response : PostResponse) : Option PyExn :=
  if ¬ (200 ≤ response.code.getD 200 ∧ response.code.getD 200 < 300) then
    some (.BackendError (response.message.getD "No error message provided") none)
  else
    match response.error with
    | some s => if s ≠ "" then some (.BackendError s response.errorCode) else none
    | none => none

/-- The resolver implementations registered at import time by
src/kagglehub/__init__.py lines 13-22. -/
inductive ResolverImpl where
  | ModelHttpResolver
  | ModelKaggleCacheResolver
  | ModelColabCacheResolver
  | DatasetHttpResolver
  | DatasetKaggleCacheResolver
  | DatasetColabCacheResolver
  | CompetitionHttpResolver
  | CompetitionKaggleCacheResolver
  deriving DecidableEq

/-- An implementation is the HTTP (network fallback) resolver. -/
def is_http_resolver : ResolverImpl → Bool
  | .ModelHttpResolver | .DatasetHttpResolver | .CompetitionHttpResolver => true
  | _ => false

/-- An implementation is an environment cache resolver (Kaggle notebook
cache or Colab cache). -/
def is_env_cache_resolver : ResolverImpl → Bool
  | .ModelKaggleCacheResolver | .ModelColabCacheResolver
  | .DatasetKaggleCacheResolver | .DatasetColabCacheResolver
  | .CompetitionKaggleCacheResolver => true
  | _ => false

/-- Modelled from the spec: registry.py is not among the sources; the
spec says `add_implementation(resolver)` appends to the chain for the
resolver's kind (section 4.2). -/
def add_implementation (chain : List ResolverImpl) (r : ResolverImpl) :
    List ResolverImpl :=
  chain ++ [r]

/-- The model chain as built by __init__.py lines 13-15: HTTP resolver
registered first, then the Kaggle cache resolver, then the Colab cache
resolver. -/
def model_resolver_chain : List ResolverImpl :=
  add_implementation
    (add_implementation
      (add_implementation [] .ModelHttpResolver)
      .ModelKaggleCacheResolver)
    .ModelColabCacheResolver

/-- The dataset chain as built by __init__.py lines 17-19. -/
def dataset_resolver_chain : List ResolverImpl :=
  add_implementation
    (add_implementation
      (add_implementation [] .DatasetHttpResolver)
      .DatasetKaggleCacheResolver)
    .DatasetColabCacheResolver

/-- The competition chain as built by __init__.py lines 21-22. -/
def competition_resolver_chain : List ResolverImpl :=
  add_implementation
    (add_implementation [] .CompetitionHttpResolver)
    .CompetitionKaggleCacheResolver

/-- A resolver as the spec's capability interface describes it:
`is_supported` probes the environment for a handle, `resolve` produces a
local path or raises. -/
structure Resolver (H P : Type) where
  is_supported : H → Bool
  resolve : H → Except PyExn P

/-- Modelled from the spec: registry.py is not among the sources. Spec
section 4.2: iterate the chain in order, skip resolvers that report
unsupported, call `resolve` on the first supported resolver and
propagate its outcome; if none is supported, fail with
`UnsupportedEnvironmentError`. The second component records the indices
(counted from `i`) of the resolvers whose `resolve` was invoked. -/
def registry_resolve_from {H P : Type} :
    List (Resolver H P) → H → Nat → Except PyExn P × List Nat
  | [], _, _ => (.error .UnsupportedEnvironmentError, [])
  | r :: rest, h, i =>
    if r.is_supported h then (r.resolve h, [i])
    else registry_resolve_from rest h (i + 1)

/-- Resolve a handle against a chain, returning the outcome and the
indices of the resolvers whose `resolve` was invoked. -/
def registry_resolve {H P : Type} (chain : List (Resolver H P)) (h : H) :
    Except PyExn P × List Nat :=
  registry_resolve_from chain h 0

/-- A stub environment cache resolver that reports unsupported. -/
def unsupported_env_stub : Resolver Unit String :=
  { is_supported := fun _ => false, resolve := fun _ => .ok "/mnt/env" }

/-- A stub environment cache resolver that is supported and raises
`NotFoundError` from `resolve`. -/
def failing_env_stub : Resolver Unit String :=
  { is_supported := fun _ => true, resolve := fun _ => .error .NotFoundError }

/-- A stub HTTP resolver: always supported, resolves to a cache path. -/
def http_stub : Resolver Unit String :=
  { is_supported := fun _ => true, resolve := fun _ => .ok "/cache/model" }

/-- The string begins with the path separator (Python
`s.startswith(sep)` for the one-character separator). -/
def starts_with_sep (s : String) : Bool :=
  match s.data with
  | [] => false
  | c :: _ => c = '/'

/-- The string ends with the path separator (Python `s.endswith(sep)`
for the one-character separator). -/
def ends_with_sep (s : String) : Bool :=
  match s.data.getLast? with
  | some c => c = '/'
  | none => false

/-- Two-argument `os.path.join` as dj.py uses it: an absolute second
component replaces the first; otherwise the components are concatenated
with a separator unless one is already present or the first is empty. -/
def os_path_join (a b : String) : String :=
  if starts_with_sep b then b
  else if a = "" ∨ ends_with_sep a = true then a ++ b
  else a ++ "/" ++ b

/-- Python `x or default` for the context variable's value: the default
is taken when the value is `None` or the empty string. -/
def py_or_str (x : Option String) (default : String) : String :=
  match x with
  | some s => if s = "" then default else s
  | none => default

/-- dj.py lines 37-41. The ambient value of the
`scoped_pipeline_dir_ctx` context variable at call time is passed as
`ctx`; the `os.makedirs` side effect does not affect the returned path
and is not modelled. -/
def get_asset_path (ctx : Option String) (path : String) : String :=
  let pipeline_dir := py_or_str ctx "/kaggle/working"
  let assets_dir := os_path_join pipeline_dir "assets"
  os_path_join assets_dir path

/-- The directory the claim about `get_asset_path` describes: the current
scoped pipeline directory when one is set to a non-empty value, and the
fixed default otherwise. -/
def claimed_pipeline_dir (ctx : Option String) : String :=
  match ctx with
  | some d => if d ≠ "" then d else "/kaggle/working"
  | none => "/kaggle/working"

/-- The state threaded through `pipeline_scoped`: the value of the
`scoped_pipeline_dir_ctx` context variable plus the rest of the ambient
world (modelled as an opaque-but-inspectable counter of other effects). -/
structure PipelineState where
  scoped_pipeline_dir : Option String
  world : Nat
  deriving DecidableEq

/-- dj.py lines 18-35. The wrapped function is modelled as a state
transformer that may raise (`Except`); `pipeline_dir` stands for the
directory computed from the function's module (or the interactive
default). The wrapper saves the context variable, sets it to
`pipeline_dir`, runs the function, and in a `finally` block restores the
saved value before returning the function's outcome (value or raised
exception). -/
def pipeline_scoped {A : Type} (pipeline_dir : String)
    (func : PipelineState → PipelineState × Except PyExn A)
    (s : PipelineState) : PipelineState × Except PyExn A :=
  let original_ctx := s.scoped_pipeline_dir
  let inner := func { s with scoped_pipeline_dir := some pipeline_dir }
  ({ inner.1 with scoped_pipeline_dir := original_ctx }, inner.2)

/-- Claim C1, counterexample: the claim says the HTTP resolver is the
last implementation registered in each chain; in __init__.py it is the
first registered, and the last registered implementation of the model
chain is the Colab cache resolver, not an HTTP resolver. -/
theorem C1_counterexample :
    model_resolver_chain.head? = some ResolverImpl.ModelHttpResolver ∧
    model_resolver_chain.getLast? = some ResolverImpl.ModelColabCacheResolver ∧
    is_http_resolver ResolverImpl.ModelColabCacheResolver = false := by
  decide

/-- Claim C1, amended: in every resolver chain built at process
start-up, the HTTP resolver is the first implementation registered, and
every implementation registered after it is an environment cache
resolver (Kaggle notebook cache or Colab cache). -/
theorem C1_amended_thm :
    (model_resolver_chain.head? = some ResolverImpl.ModelHttpResolver ∧
      model_resolver_chain.tail.all is_env_cache_resolver = true) ∧
    (dataset_resolver_chain.head? = some ResolverImpl.DatasetHttpResolver ∧
      dataset_resolver_chain.tail.all is_env_cache_resolver = true) ∧
    (competition_resolver_chain.head? = some ResolverImpl.CompetitionHttpResolver ∧
      competition_resolver_chain.tail.all is_env_cache_resolver = true) := by
  decide

/-- Claim C2, counterexample: on a 401 response
`kaggle_api_raise_for_status` raises `KaggleApiHTTP1Error`, not
`UnauthenticatedError`, and on a 404 response `colab_raise_for_status`
raises `ColabHTTP1Error`, not `NotFoundError`. -/
theorem C2_counterexample :
    raised_unauthenticated
      (kaggle_api_raise_for_status { status := 401, url := "http://u" } none) = false ∧
    kaggle_api_raise_for_status { status := 401, url := "http://u" } none
      = some (.KaggleApiHTTP1Error (permission_denied_message 401 "http://u")) ∧
    raised_not_found
      (colab_raise_for_status { status := 404, url := "http://u" } none) = false ∧
    colab_raise_for_status { status := 404, url := "http://u" } none
      = some (.ColabHTTP1Error (str_of_http_error 404)) :=
  ⟨rfl, rfl, rfl, rfl⟩

/-- Claim C2, amended: for 401 and 403 responses
`kaggle_api_raise_for_status` raises `KaggleApiHTTP1Error` and
`colab_raise_for_status` raises `ColabHTTP1Error`, both carrying the
guidance-to-authenticate message; for 404 responses
`colab_raise_for_status` raises `ColabHTTP1Error` while
`kaggle_api_raise_for_status` fails with `UnboundLocalError` on the
unassigned local `resource_url`. Neither function raises
`UnauthenticatedError` or `NotFoundError`. -/
theorem C2_amended_thm (response : ClientResponse)
    (rh : Option ResourceHandle) :
    ((response.status = 401 ∨ response.status = 403) →
      kaggle_api_raise_for_status response rh
        = some (.KaggleApiHTTP1Error
            (permission_denied_message response.status (resource_url_of response rh))) ∧
      colab_raise_for_status response rh
        = some (.ColabHTTP1Error
            (permission_denied_message response.status (resource_url_of response rh)))) ∧
    (response.status = 404 →
      kaggle_api_raise_for_status response rh = some (.UnboundLocalError "resource_url") ∧
      colab_raise_for_status response rh
        = some (.ColabHTTP1Error (str_of_http_error response.status))) ∧
    raised_unauthenticated (kaggle_api_raise_for_status response rh) = false ∧
    raised_unauthenticated (colab_raise_for_status response rh) = false ∧
    raised_not_found (kaggle_api_raise_for_status response rh) = false ∧
    raised_not_found (colab_raise_for_status response rh) = false := by
  obtain ⟨st, url⟩ := response
  refine ⟨?_, ?_, ?_, ?_, ?_, ?_⟩
  · rintro (h | h) <;> subst h <;> exact ⟨rfl, rfl⟩
  · rintro h; subst h; exact ⟨rfl, rfl⟩
  · simp only [kaggle_api_raise_for_status]
    split <;> [skip; split] <;> [rfl; rfl; skip]
    split <;> [rfl; split <;> rfl]
  · simp only [colab_raise_for_status]
    split <;> rfl
  · simp only [kaggle_api_raise_for_status]
    split <;> [skip; split] <;> [rfl; rfl; skip]
    split <;> [rfl; split <;> rfl]
  · simp only [colab_raise_for_status]
    split <;> rfl

/-- Claim C2, witness for the amended theorem at concrete responses. -/
theorem C2_amended_witness :
    kaggle_api_raise_for_status { status := 403, url := "http://u" } none
      = some (.KaggleApiHTTP1Error (permission_denied_message 403 "http://u")) ∧
    colab_raise_for_status { status := 404, url := "http://u" } none
      = some (.ColabHTTP1Error (str_of_http_error 404)) :=
  ⟨((C2_amended_thm { status := 403, url := "http://u" } none).1 (Or.inr rfl)).1,
   ((C2_amended_thm { status := 404, url := "http://u" } none).2.1 rfl).2⟩

/-- Claim C9: the code is wrong at its 404 branch. On every response
whose status is 404, `kaggle_api_raise_for_status` reads the local
variable `resource_url`, which that branch never assigns, so it fails
with `UnboundLocalError` instead of raising `KaggleApiHTTP1Error` with a
resource-not-found message. -/
theorem C9_bug_eval :
    kaggle_api_raise_for_status { status := 404, url := "http://api/x" } none
      = some (.UnboundLocalError "resource_url") :=
  rfl

/-- Claim C3: `process_post_response` raises exactly when the body's
`code` field is present and lies outside [200, 300), or the body has an
`error` field with a non-empty string value; whatever it raises is a
`BackendError`; in all other cases (including a body with no `code`
field) it returns normally. -/
theorem C3_thm (r : PostResponse) :
    ((process_post_response r).isSome ↔
      ((∃ c : Int, r.code = some c ∧ (c < 200 ∨ 300 ≤ c)) ∨
       (∃ s : String, r.error = some s ∧ s ≠ ""))) ∧
    (process_post_response r).all is_backend_error = true := by
  obtain ⟨code, message, error, errorCode⟩ := r
  constructor
  · cases code with
    | none =>
      cases error with
      | none => simp [process_post_response]
      | some s =>
        by_cases hs : s = "" <;> simp [process_post_response, hs]
    | some c =>
      by_cases hc : 200 ≤ c ∧ c < 300
      · cases error with
        | none =>
          have h0 : process_post_response ⟨some c, message, none, errorCode⟩ = none := by
            simp [process_post_response, hc.1, hc.2]
          rw [h0]
          simp only [Option.isSome_none, Bool.false_eq_true, false_iff]
          rintro (⟨c1, hc1, h1⟩ | ⟨s, hs, _⟩)
          · injection hc1 with h
            omega
          · exact absurd hs (by simp)
        | some s =>
          by_cases hs : s = "" <;>
            simp [process_post_response, hc, hs, Option.getD_some]
      · simp only [process_post_response, Option.getD_some, hc, not_false_eq_true,
          if_true, Option.isSome_some, true_iff]
        exact Or.inl ⟨c, rfl, by omega⟩
  · cases code with
    | none =>
      cases error with
      | none => simp [process_post_response, is_backend_error]
      | some s =>
        by_cases hs : s = "" <;> simp [process_post_response, hs, is_backend_error]
    | some c =>
      by_cases hc : 200 ≤ c ∧ c < 300
      · cases error with
        | none => simp [process_post_response, hc, is_backend_error]
        | some s =>
          by_cases hs : s = "" <;>
            simp [process_post_response, hc, hs, is_backend_error]
      · simp [process_post_response, hc, is_backend_error]

/-- Claim C4, counterexample: a body whose `code` is out of range and
which carries `errorCode` 42 makes `process_post_response` raise a
`BackendError` whose `error_code` is `none`, not 42 — the first branch
never reads `errorCode`. -/
theorem C4_counterexample :
    process_post_response
        { code := some 500, message := some "boom", error := none, errorCode := some 42 }
      = some (.BackendError "boom" none) :=
  rfl

/-- Claim C4, amended: only the non-empty-`error` branch carries the
body's numeric `errorCode` onto the raised `BackendError`; the
out-of-range-`code` branch always raises with `error_code = none`, even
when the body holds an `errorCode`. -/
theorem C4_amended_thm (r : PostResponse) :
    (¬ (200 ≤ r.code.getD 200 ∧ r.code.getD 200 < 300) →
      process_post_response r
        = some (.BackendError (r.message.getD "No error message provided") none)) ∧
    (∀ s : String, (200 ≤ r.code.getD 200 ∧ r.code.getD 200 < 300) →
      r.error = some s → s ≠ "" →
      process_post_response r = some (.BackendError s r.errorCode)) := by
  constructor
  · intro hc
    simp [process_post_response, hc]
  · intro s hc hs hne
    simp [process_post_response, hc, hs, hne]

/-- Claim C4, witness for the amended theorem: both branches evaluated
at concrete bodies carrying `errorCode`. -/
theorem C4_amended_witness :
    process_post_response
        { code := some 500, message := some "down", error := none, errorCode := some 42 }
      = some (.BackendError "down" none) ∧
    process_post_response
        { code := some 200, message := none, error := some "bad handle", errorCode := some 7 }
      = some (.BackendError "bad handle" (some 7)) :=
  ⟨(C4_amended_thm
      { code := some 500, message := some "down", error := none, errorCode := some 42 }).1
      (by decide),
   (C4_amended_thm
      { code := some 200, message := none, error := some "bad handle", errorCode := some 7 }).2
      "bad handle" (by decide) rfl (by decide)⟩

/-- Claim C5, counterexample: the exceptions module does not define
`ValidationError` or `UnsupportedEnvironmentError`, and it defines
classes (for example `CredentialError`) outside the spec's six kinds, so
its taxonomy is not exactly the six named kinds. -/
theorem C5_counterexample :
    "ValidationError" ∉ exceptions_module_classes ∧
    "UnsupportedEnvironmentError" ∉ exceptions_module_classes ∧
    "CredentialError" ∈ exceptions_module_classes ∧
    "CredentialError" ∉ spec_error_taxonomy := by
  decide

/-- Claim C5, amended: the exceptions module defines eleven exception
classes; of the spec's six kinds it contains `UnauthenticatedError`,
`NotFoundError`, `BackendError` and `DataCorruptionError`, but neither
`ValidationError` nor `UnsupportedEnvironmentError`, and it defines
classes outside the spec's taxonomy. -/
theorem C5_amended_thm :
    exceptions_module_classes.length = 11 ∧
    "UnauthenticatedError" ∈ exceptions_module_classes ∧
    "NotFoundError" ∈ exceptions_module_classes ∧
    "BackendError" ∈ exceptions_module_classes ∧
    "DataCorruptionError" ∈ exceptions_module_classes ∧
    "ValidationError" ∉ exceptions_module_classes ∧
    "UnsupportedEnvironmentError" ∉ exceptions_module_classes ∧
    ¬ (∀ c ∈ exceptions_module_classes, c ∈ spec_error_taxonomy) := by
  decide

/-- In a chain whose proper prefix is all unsupported, resolution
invokes exactly the first supported resolver and returns its outcome. -/
theorem registry_resolve_from_first_supported {H P : Type} :
    ∀ (pre : List (Resolver H P)) (r : Resolver H P)
      (post : List (Resolver H P)) (h : H) (i : Nat),
      (∀ r' ∈ pre, r'.is_supported h = false) → r.is_supported h = true →
      registry_resolve_from (pre ++ r :: post) h i = (r.resolve h, [i + pre.length]) := by
  intro pre
  induction pre with
  | nil =>
    intro r post h i _ hsup
    simp [registry_resolve_from, hsup]
  | cons r0 rest ih =>
    intro r post h i hpre hsup
    have h0 : r0.is_supported h = false := hpre r0 (List.mem_cons_self r0 rest)
    have hrest : ∀ r' ∈ rest, r'.is_supported h = false := fun r' hr' =>
      hpre r' (List.mem_cons_of_mem r0 hr')
    simp only [List.cons_append, registry_resolve_from, h0, Bool.false_eq_true,
      if_false, List.length_cons, List.append_eq]
    rw [ih r post h (i + 1) hrest hsup]
    have harith : i + 1 + rest.length = i + (rest.length + 1) := by omega
    rw [harith]

/-- Claim C6: once the first supported resolver of a chain commits and
its `resolve` raises `NotFoundError` or a `BackendError`, the registry
propagates exactly that error, and the invocation record shows that no
resolver after it (and none before it) had `resolve` invoked. -/
theorem C6_thm {H P : Type} (pre : List (Resolver H P)) (r : Resolver H P)
    (post : List (Resolver H P)) (h : H) (e : PyExn)
    (hpre : ∀ r' ∈ pre, r'.is_supported h = false)
    (hsup : r.is_supported h = true)
    (hres : r.resolve h = .error e)
    (herr : e = .NotFoundError ∨ is_backend_error e = true) :
    registry_resolve (pre ++ r :: post) h = (.error e, [pre.length]) := by
  unfold registry_resolve
  rw [registry_resolve_from_first_supported pre r post h 0 hpre hsup, hres]
  simp

/-- Claim C6, witness: a chain of one unsupported environment cache
resolver, one supported environment cache resolver raising
`NotFoundError`, and the HTTP resolver; resolution raises the
`NotFoundError` and only the committed resolver (index 1) is invoked. -/
theorem C6_witness :
    registry_resolve [unsupported_env_stub, failing_env_stub, http_stub] ()
      = (.error .NotFoundError, [1]) :=
  C6_thm [unsupported_env_stub] failing_env_stub [http_stub] () .NotFoundError
    (by intro r' hr'
        simp only [List.mem_singleton] at hr'
        rw [hr']
        rfl)
    rfl rfl (Or.inl rfl)

/-- Claim C7, counterexample: `get_asset_path` with the same argument
returns different paths under different ambient scoped
pipeline-directory states, so it does not depend only on its explicit
arguments. -/
theorem C7_counterexample :
    get_asset_path (some "/tmp/pipe") "model.pkl"
      ≠ get_asset_path none "model.pkl" := by
  decide

/-- Claim C7, amended: `get_asset_path` reads the ambient scoped
pipeline-directory context variable in addition to its explicit
argument, and that ambient dependence factors through the effective
pipeline directory (the ambient value when set and non-empty, the
default otherwise): two calls with the same argument return the same
path whenever they are made under ambient states with the same
effective pipeline directory. -/
theorem C7_amended_thm (ctx1 ctx2 : Option String) (p : String)
    (h : py_or_str ctx1 "/kaggle/working" = py_or_str ctx2 "/kaggle/working") :
    get_asset_path ctx1 p = get_asset_path ctx2 p := by
  unfold get_asset_path
  rw [h]

/-- Claim C7, witness for the amended theorem: the unset state and the
empty-string state are distinct ambient states with the same effective
directory, and yield the same path. -/
theorem C7_amended_witness :
    get_asset_path none "report.txt" = get_asset_path (some "") "report.txt" :=
  C7_amended_thm none (some "") "report.txt" rfl

/-- Claim C8: for every wrapped function, directory and starting state,
the `pipeline_scoped` wrapper leaves the scoped pipeline-directory
context variable equal to its value from before the call, returns
exactly the function's outcome (its value on normal return, its
exception when it raises), and passes the function's other state
effects through unchanged. -/
theorem C8_thm {A : Type} (pipeline_dir : String)
    (func : PipelineState → PipelineState × Except PyExn A)
    (s : PipelineState) :
    (pipeline_scoped pipeline_dir func s).1.scoped_pipeline_dir
        = s.scoped_pipeline_dir ∧
    (pipeline_scoped pipeline_dir func s).2
        = (func { s with scoped_pipeline_dir := some pipeline_dir }).2 ∧
    (pipeline_scoped pipeline_dir func s).1.world
        = (func { s with scoped_pipeline_dir := some pipeline_dir }).1.world := by
  exact ⟨rfl, rfl, rfl⟩

/-- Claim C10: for every relative path `p`, `get_asset_path p` returns
the join of `d`, the literal segment `assets`, and `p`, where `d` is the
current scoped pipeline directory when set to a non-empty value and the
default `/kaggle/working` otherwise. -/
theorem C10_thm (ctx : Option String) (p : String)
    (hrel : starts_with_sep p = false) :
    get_asset_path ctx p
      = os_path_join (os_path_join (claimed_pipeline_dir ctx) "assets") p := by
  have hd : py_or_str ctx "/kaggle/working" = claimed_pipeline_dir ctx := by
    unfold py_or_str claimed_pipeline_dir
    cases ctx with
    | none => rfl
    | some d =>
      by_cases hd0 : d = "" <;> simp [hd0]
  unfold get_asset_path
  rw [hd]

/-- Claim C10, witness at a concrete ambient directory and relative
path. -/
theorem C10_witness :
    get_asset_path (some "/srv/pipe") "data.csv" = "/srv/pipe/assets/data.csv" := by
  rw [C10_thm (some "/srv/pipe") "data.csv" rfl]
  decide

end Kagglehub
